import Mathlib

/-!
Shallow embedding of the stock-update-and-audit-trail core of the
node-inventory-management repository.

JavaScript numbers that hold prices and stock levels are modelled as exact
rationals (ℚ); millisecond timestamps produced by Date.now() are modelled as
Nat values threaded explicitly into every operation that reads the clock.
Module-level mutable arrays (MockProductService.products,
MockInventoryLogService.logs) become explicit state passed in and out.
-/

namespace Inventory

/-- Embeds the UserRole enum of src/types (admin, manager, viewer). -/
inductive UserRole where
  | admin
  | manager
  | viewer
deriving DecidableEq, Fintype

/-- Embeds the roleHierarchy table inside AuthUtils.hasRole
(src/utils/auth.ts): viewer maps to 1, manager to 2, admin to 3. -/
def roleHierarchy : UserRole → Nat
  | .viewer => 1
  | .manager => 2
  | .admin => 3

/-- Embeds AuthUtils.hasRole (src/utils/auth.ts): true iff the caller's rank
is at least the required rank. -/
def hasRole (userRole requiredRole : UserRole) : Bool :=
  roleHierarchy userRole ≥ roleHierarchy requiredRole

/-- Embeds AuthUtils.hasAnyRole (src/utils/auth.ts). -/
def hasAnyRole (userRole : UserRole) (requiredRoles : List UserRole) : Bool :=
  requiredRoles.any fun role => hasRole userRole role

/-- Embeds the IProduct interface of src/types.  createdAt/updatedAt are
millisecond timestamps. -/
structure Product where
  _id : String
  name : String
  sku : String
  price : ℚ
  category : String
  stock : ℚ
  minStock : Option ℚ
  description : Option String
  warehouseId : Option String
  createdAt : Nat
  updatedAt : Nat
deriving DecidableEq

/-- The three declared action kinds of IInventoryLog.action
('add' | 'update' | 'remove'). -/
inductive LogAction where
  | add
  | update
  | remove
deriving DecidableEq, Fintype

/-- Embeds the IInventoryLog interface of src/types. -/
structure InventoryLog where
  _id : String
  productId : String
  warehouseId : Option String
  userId : String
  action : LogAction
  previousStock : ℚ
  newStock : ℚ
  quantity : ℚ
  reason : Option String
  timestamp : Nat
deriving DecidableEq

end Inventory

namespace Inventory.MockProductService

/-- Embeds MockProductService.findById (src/data/mockProducts.ts):
first product whose _id matches, JS Array.prototype.find. -/
def findById : List Product → String → Option Product
  | [], _ => none
  | p :: ps, id => if p._id = id then some p else findById ps id

/-- Embeds MockProductService.findBySku (src/data/mockProducts.ts):
first product whose sku matches exactly (case-sensitive ===). -/
def findBySku : List Product → String → Option Product
  | [], _ => none
  | p :: ps, sku => if p.sku = sku then some p else findBySku ps sku

/-- The argument of MockProductService.create:
Omit IProduct (_id, createdAt, updatedAt). -/
structure ProductData where
  name : String
  sku : String
  price : ℚ
  category : String
  stock : ℚ
  minStock : Option ℚ
  description : Option String
  warehouseId : Option String
deriving DecidableEq

/-- Embeds MockProductService.create (src/data/mockProducts.ts): the new
product's _id is the template string prod_ followed by Date.now(), and the
product is pushed onto the end of the array.  Returns the created product
(the source returns a copy) together with the updated store. -/
def create (products : List Product) (now : Nat) (d : ProductData) :
    Product × List Product :=
  let newProduct : Product :=
    { _id := "prod_" ++ Nat.repr now
      name := d.name
      sku := d.sku
      price := d.price
      category := d.category
      stock := d.stock
      minStock := d.minStock
      description := d.description
      warehouseId := d.warehouseId
      createdAt := now
      updatedAt := now }
  (newProduct, products ++ [newProduct])

/-- Embeds MockProductService.updateStock (src/data/mockProducts.ts):
findIndex on _id, in-place mutation of stock and updatedAt at that index,
returning a copy of the mutated product, or null when the id is absent. -/
def updateStock : List Product → String → ℚ → Nat → Option Product × List Product
  | [], _, _, _ => (none, [])
  | p :: ps, id, newStock, now =>
    if p._id = id then
      let p' := { p with stock := newStock, updatedAt := now }
      (some p', p' :: ps)
    else
      let r := updateStock ps id newStock now
      (r.1, p :: r.2)

end Inventory.MockProductService

namespace Inventory.MockInventoryLogService

/-- The argument of MockInventoryLogService.create:
Omit IInventoryLog (_id, timestamp). -/
structure LogData where
  productId : String
  warehouseId : Option String
  userId : String
  action : LogAction
  previousStock : ℚ
  newStock : ℚ
  quantity : ℚ
  reason : Option String
deriving DecidableEq

/-- Embeds MockInventoryLogService.create (src/data/mockUsers.ts, log
service part): the new log's _id is the template string log_ followed by
Date.now(), its timestamp is the current clock, and it is pushed onto the
end of the array.  Returns the created entry with the updated log list. -/
def create (logs : List InventoryLog) (now : Nat) (d : LogData) :
    InventoryLog × List InventoryLog :=
  let newLog : InventoryLog :=
    { _id := "log_" ++ Nat.repr now
      productId := d.productId
      warehouseId := d.warehouseId
      userId := d.userId
      action := d.action
      previousStock := d.previousStock
      newStock := d.newStock
      quantity := d.quantity
      reason := d.reason
      timestamp := now }
  (newLog, logs ++ [newLog])

/-- Embeds MockInventoryLogService.createStockUpdate (src/data/mockUsers.ts,
log service part): quantity is newStock - previousStock; the action is the
source's ternary chain, add when the quantity is positive, update when it is
negative, update otherwise; a falsy reason (absent or the empty string,
JS reason or-default) is replaced by the string Stock update. -/
def createStockUpdate (logs : List InventoryLog) (now : Nat)
    (productId warehouseId userId : String) (previousStock newStock : ℚ)
    (reason : Option String) : InventoryLog × List InventoryLog :=
  let quantity := newStock - previousStock
  let action : LogAction :=
    if quantity > 0 then .add else if quantity < 0 then .update else .update
  create logs now
    { productId := productId
      warehouseId := some warehouseId
      userId := userId
      action := action
      previousStock := previousStock
      newStock := newStock
      quantity := quantity
      reason := some (match reason with
        | none => "Stock update"
        | some r => if r = "" then "Stock update" else r) }

/-- One call to the public surface of MockInventoryLogService
(src/data/mockUsers.ts, log service part): every method of the class is
listed, the read-only queries with the arguments they take. -/
inductive LogServiceOp where
  | findAll
  | findById (id : String)
  | findByProduct (productId : String)
  | findByWarehouse (warehouseId : String)
  | findByUser (userId : String)
  | findRecent (limit : Nat)
  | count
  | getStockMovements (productId : String) (days : Nat)
  | getTotalMovementsByAction
  | create (d : LogData)
  | createStockUpdate (productId warehouseId userId : String)
      (previousStock newStock : ℚ) (reason : Option String)

/-- Effect of one MockInventoryLogService call on the stored log array.
The query methods filter, sort and copy but never write this.logs; only
create and createStockUpdate push a new entry. -/
def applyLogOp (logs : List InventoryLog) (now : Nat) :
    LogServiceOp → List InventoryLog
  | .findAll => logs
  | .findById _ => logs
  | .findByProduct _ => logs
  | .findByWarehouse _ => logs
  | .findByUser _ => logs
  | .findRecent _ => logs
  | .count => logs
  | .getStockMovements _ _ => logs
  | .getTotalMovementsByAction => logs
  | .create d => (create logs now d).2
  | .createStockUpdate pid wid uid prev new r =>
      (createStockUpdate logs now pid wid uid prev new r).2

/-- Runs a sequence of timestamped MockInventoryLogService calls. -/
def runLogOps (logs : List InventoryLog) : List (Nat × LogServiceOp) → List InventoryLog
  | [] => logs
  | (now, op) :: rest => runLogOps (applyLogOp logs now op) rest

end Inventory.MockInventoryLogService

namespace Inventory

/-- The module-level mutable state the inventory controller touches:
the product array of MockProductService and the log array of
MockInventoryLogService. -/
structure StoreState where
  products : List Product
  logs : List InventoryLog
deriving DecidableEq

/-- The body of a PATCH stock request as seen by
InventoryController.updateStockSchema: stock is required and numeric
(none models a missing or non-numeric stock field, which Joi rejects),
reason is an optional string. -/
structure StockBody where
  stock : Option ℚ
  reason : Option String
deriving DecidableEq

/-- Outcome of InventoryController.updateStockSchema.validate:
Joi.number().min(0).required() rejects a missing or non-numeric stock and
any negative stock. -/
inductive StockValidation where
  | ok (stock : ℚ) (reason : Option String)
  | error
deriving DecidableEq

/-- Embeds the validation performed by InventoryController.updateStockSchema
(src/controllers/productController.ts). -/
def validateUpdateStock (b : StockBody) : StockValidation :=
  match b.stock with
  | none => .error
  | some v => if v < 0 then .error else .ok v b.reason

/-- The four ways InventoryController.updateStock answers: 200 with
productId, previousStock, updatedStock and updatedAt; 400 validation error;
404 product not found; 500 when the store update fails. -/
inductive UpdateStockResult where
  | ok (productId : String) (previousStock updatedStock : ℚ) (updatedAt : Nat)
  | validationError
  | notFound
  | serverError
deriving DecidableEq

/-- Embeds InventoryController.updateStock
(src/controllers/productController.ts): validate the body, look the product
up, remember previousStock, write the new stock through
MockProductService.updateStock, then append one audit entry through
MockInventoryLogService.createStockUpdate with the product's warehouseId
defaulted to the empty string when falsy. -/
def InventoryController.updateStock (s : StoreState) (now : Nat)
    (userId : String) (id : String) (b : StockBody) :
    UpdateStockResult × StoreState :=
  match validateUpdateStock b with
  | .error => (.validationError, s)
  | .ok newStock reason =>
    match MockProductService.findById s.products id with
    | none => (.notFound, s)
    | some product =>
      let previousStock := product.stock
      let r := MockProductService.updateStock s.products id newStock now
      match r.1 with
      | none => (.serverError, { s with products := r.2 })
      | some updatedProduct =>
        let logsAfter := MockInventoryLogService.createStockUpdate s.logs now id
          (product.warehouseId.getD "") userId previousStock newStock reason
        (.ok id previousStock newStock updatedProduct.updatedAt,
          { products := r.2, logs := logsAfter.2 })

/-- Embeds the validation performed by ProductController.productSchema
(src/controllers/productController.ts): name, sku and category are
non-empty strings, price and stock are numbers at least 0, minStock when
present is at least 0; description and warehouseId are free. -/
def validateProductBody (b : MockProductService.ProductData) : Bool :=
  decide (1 ≤ b.name.length) && decide (1 ≤ b.sku.length) &&
  decide (0 ≤ b.price) && decide (1 ≤ b.category.length) &&
  decide (0 ≤ b.stock) &&
  (match b.minStock with
    | none => true
    | some m => decide (0 ≤ m))

/-- The three ways ProductController.createProduct answers: 201 with the
created product, 400 validation error, 409 SKU conflict. -/
inductive CreateProductResult where
  | created (p : Product)
  | validationError
  | conflict
deriving DecidableEq

/-- Embeds ProductController.createProduct
(src/controllers/productController.ts): validate the body, reject with 409
when findBySku already finds the SKU, otherwise create the product. -/
def ProductController.createProduct (s : StoreState) (now : Nat)
    (b : MockProductService.ProductData) : CreateProductResult × StoreState :=
  if validateProductBody b then
    match MockProductService.findBySku s.products b.sku with
    | some _ => (.conflict, s)
    | none =>
      let r := MockProductService.create s.products now b
      (.created r.1, { s with products := r.2 })
  else (.validationError, s)

end Inventory

namespace Inventory

/-- The five seeded products of MockProductService (src/data/mockProducts.ts).
The Date literals new Date(2024-01-01) become the epoch milliseconds
1704067200000. -/
def initialProducts : List Product :=
  [{ _id := "prod_001"
     name := "Laptop Dell XPS 15"
     sku := "DX15-2025"
     price := 1200.99
     category := "Electronics"
     stock := 5
     minStock := some 10
     description := some "High-performance laptop for professionals"
     warehouseId := some "wh_main"
     createdAt := 1704067200000
     updatedAt := 1704067200000 },
   { _id := "prod_002"
     name := "Wireless Mouse"
     sku := "WM-2025"
     price := 25.99
     category := "Electronics"
     stock := 3
     minStock := some 15
     description := some "Ergonomic wireless mouse"
     warehouseId := some "wh_main"
     createdAt := 1704067200000
     updatedAt := 1704067200000 },
   { _id := "prod_003"
     name := "Office Chair"
     sku := "OC-2025"
     price := 199.99
     category := "Furniture"
     stock := 25
     minStock := some 5
     description := some "Comfortable ergonomic office chair"
     warehouseId := some "wh_main"
     createdAt := 1704067200000
     updatedAt := 1704067200000 },
   { _id := "prod_004"
     name := "Printer Paper A4"
     sku := "PP-A4-500"
     price := 8.99
     category := "Office Supplies"
     stock := 150
     minStock := some 20
     description := some "500 sheets of premium A4 printer paper"
     warehouseId := some "wh_storage"
     createdAt := 1704067200000
     updatedAt := 1704067200000 },
   { _id := "prod_005"
     name := "Coffee Maker"
     sku := "CM-DELUXE"
     price := 89.99
     category := "Appliances"
     stock := 12
     minStock := some 8
     description := some "12-cup programmable coffee maker"
     warehouseId := some "wh_main"
     createdAt := 1704067200000
     updatedAt := 1704067200000 }]

/-- The four seeded entries of MockInventoryLogService
(src/data/mockUsers.ts, log service part), ISO timestamps converted to
epoch milliseconds. -/
def initialLogs : List InventoryLog :=
  [{ _id := "log_001"
     productId := "prod_001"
     warehouseId := some "wh_main"
     userId := "user_manager_001"
     action := .update
     previousStock := 50
     newStock := 45
     quantity := -5
     reason := some "Sold to customer"
     timestamp := 1705312800000 },
   { _id := "log_002"
     productId := "prod_002"
     warehouseId := some "wh_main"
     userId := "user_manager_001"
     action := .update
     previousStock := 20
     newStock := 15
     quantity := -5
     reason := some "Inventory adjustment"
     timestamp := 1705242600000 },
   { _id := "log_003"
     productId := "prod_003"
     warehouseId := some "wh_main"
     userId := "user_admin_001"
     action := .add
     previousStock := 0
     newStock := 25
     quantity := 25
     reason := some "Initial stock"
     timestamp := 1704877200000 },
   { _id := "log_004"
     productId := "prod_001"
     warehouseId := some "wh_main"
     userId := "user_manager_001"
     action := .update
     previousStock := 45
     newStock := 5
     quantity := -40
     reason := some "Bulk sale"
     timestamp := 1705769100000 }]

/-- The store as the two mock services initialize it. -/
def initState : StoreState :=
  { products := initialProducts, logs := initialLogs }

/-- When findById finds a product, MockProductService.updateStock rewrites
exactly that product's stock and updatedAt, returns it, and findById sees
the new value afterwards. -/
theorem updateStock_of_findById (products : List Product) (id : String)
    (v : ℚ) (now : Nat) (p : Product)
    (h : MockProductService.findById products id = some p) :
    (MockProductService.updateStock products id v now).1
        = some { p with stock := v, updatedAt := now } ∧
    MockProductService.findById
        (MockProductService.updateStock products id v now).2 id
        = some { p with stock := v, updatedAt := now } := by
  induction products with
  | nil => simp [MockProductService.findById] at h
  | cons q ps ih =>
    by_cases hq : q._id = id
    · rw [MockProductService.findById, if_pos hq] at h
      cases h
      refine ⟨?_, ?_⟩
      · rw [MockProductService.updateStock, if_pos hq]
      · rw [MockProductService.updateStock, if_pos hq]
        simp [MockProductService.findById, hq]
    · rw [MockProductService.findById, if_neg hq] at h
      have ih' := ih h
      refine ⟨?_, ?_⟩
      · rw [MockProductService.updateStock, if_neg hq]
        exact ih'.1
      · rw [MockProductService.updateStock, if_neg hq]
        simpa [MockProductService.findById, hq] using ih'.2

/-- findBySku over an appended list scans the front first. -/
theorem findBySku_append (l1 l2 : List Product) (sku : String)
    (h : MockProductService.findBySku l1 sku = none) :
    MockProductService.findBySku (l1 ++ l2) sku
      = MockProductService.findBySku l2 sku := by
  induction l1 with
  | nil => simp
  | cons q ps ih =>
    by_cases hq : q.sku = sku
    · rw [MockProductService.findBySku, if_pos hq] at h
      cases h
    · rw [MockProductService.findBySku, if_neg hq] at h
      rw [List.cons_append, MockProductService.findBySku, if_neg hq]
      exact ih h

end Inventory

namespace Inventory

/-- Every single MockInventoryLogService call keeps the stored entries as a
prefix: queries leave the array alone, create and createStockUpdate push. -/
theorem applyLogOp_extends (logs : List InventoryLog) (now : Nat)
    (op : MockInventoryLogService.LogServiceOp) :
    logs <+: MockInventoryLogService.applyLogOp logs now op := by
  cases op <;>
    simp [MockInventoryLogService.applyLogOp, MockInventoryLogService.create,
      MockInventoryLogService.createStockUpdate]

/-- C5: the Audit Log is append-only.  Running any sequence of
MockInventoryLogService calls (timestamped queries, create or
createStockUpdate) keeps every previously stored InventoryLog entry
unchanged and in place: the original log list is a prefix of the list in
every reachable state. -/
theorem audit_log_append_only (logs : List InventoryLog)
    (ops : List (Nat × MockInventoryLogService.LogServiceOp)) :
    logs <+: MockInventoryLogService.runLogOps logs ops := by
  induction ops generalizing logs with
  | nil => simp [MockInventoryLogService.runLogOps]
  | cons hd tl ih =>
    obtain ⟨now, op⟩ := hd
    rw [MockInventoryLogService.runLogOps]
    exact (applyLogOp_extends logs now op).trans (ih _)

/-- C6: hasRole compares numeric ranks.  hasRole(actual, required) is true
iff roleHierarchy actual is at least roleHierarchy required, where the
ranking is Viewer 1, Manager 2, Admin 3; in particular
hasRole(Admin, Viewer) is true, hasRole(Viewer, Manager) is false and
hasRole(r, r) is true for every role r. -/
theorem hasRole_iff_rank_ge :
    (∀ u r : UserRole, hasRole u r = true ↔ roleHierarchy u ≥ roleHierarchy r) ∧
    roleHierarchy UserRole.viewer = 1 ∧
    roleHierarchy UserRole.manager = 2 ∧
    roleHierarchy UserRole.admin = 3 ∧
    hasRole UserRole.admin UserRole.viewer = true ∧
    hasRole UserRole.viewer UserRole.manager = false ∧
    (∀ r : UserRole, hasRole r r = true) := by
  decide

/-- C4: the action kind written by createStockUpdate is add exactly when the
delta newStock - previousStock is strictly positive and update in every
other case; remove is never produced. -/
theorem stock_update_action_kind (logs : List InventoryLog) (now : Nat)
    (pid wid uid : String) (prev next : ℚ) (reason : Option String) :
    ((MockInventoryLogService.createStockUpdate logs now pid wid uid prev next
        reason).1.action = LogAction.add ↔ next - prev > 0) ∧
    ((MockInventoryLogService.createStockUpdate logs now pid wid uid prev next
        reason).1.action = LogAction.update ↔ next - prev ≤ 0) ∧
    (MockInventoryLogService.createStockUpdate logs now pid wid uid prev next
        reason).1.action ≠ LogAction.remove := by
  unfold MockInventoryLogService.createStockUpdate MockInventoryLogService.create
  by_cases h : next - prev > 0
  · simp [h, not_le.mpr h]
  · by_cases h2 : next - prev < 0
    · simp [h, h2, not_lt.mp h]
    · simp [h, h2, not_lt.mp h]

/-- C10: a stock mutation whose reason argument is the empty string (and
likewise one whose reason is absent) gets the default reason Stock update
recorded in the created InventoryLog entry. -/
theorem empty_reason_defaults (logs : List InventoryLog) (now : Nat)
    (pid wid uid : String) (prev next : ℚ) :
    ((MockInventoryLogService.createStockUpdate logs now pid wid uid prev next
        (some "")).1.reason = some "Stock update") ∧
    ((MockInventoryLogService.createStockUpdate logs now pid wid uid prev next
        none).1.reason = some "Stock update") := by
  constructor <;> rfl

end Inventory

namespace Inventory

/-- C1: successful stock update.  For any store, any product found under the
given id and any non-negative stock in the request body, the controller
answers ok carrying the stock held before the call, the product's stock
afterwards is the requested value, and exactly one InventoryLog entry has
been appended whose previousStock is the old stock, whose newStock is the
new stock, and whose quantity is their difference. -/
theorem update_stock_success (s : StoreState) (now : Nat) (uid id : String)
    (b : StockBody) (p : Product) (v : ℚ)
    (hstock : b.stock = some v) (hv : 0 ≤ v)
    (hfind : MockProductService.findById s.products id = some p) :
    (InventoryController.updateStock s now uid id b).1
        = UpdateStockResult.ok id p.stock v now ∧
    (MockProductService.findById
        (InventoryController.updateStock s now uid id b).2.products id).map
        Product.stock = some v ∧
    ∃ e : InventoryLog,
      (InventoryController.updateStock s now uid id b).2.logs = s.logs ++ [e] ∧
      e.previousStock = p.stock ∧ e.newStock = v ∧ e.quantity = v - p.stock := by
  have hval : validateUpdateStock b = .ok v b.reason := by
    rw [validateUpdateStock, hstock]
    exact if_neg (not_lt.mpr hv)
  have hup := updateStock_of_findById s.products id v now p hfind
  unfold InventoryController.updateStock
  rw [hval, hfind]
  dsimp only
  rw [hup.1]
  dsimp only
  refine ⟨rfl, ?_, ?_⟩
  · rw [hup.2]
    rfl
  · exact ⟨_, rfl, rfl, rfl, rfl⟩

/-- C2: stock update on an absent product id.  With a well-formed body and
no product under the id, the controller answers notFound and returns the
store untouched: no product changes and no log entry is appended. -/
theorem update_stock_not_found (s : StoreState) (now : Nat) (uid id : String)
    (b : StockBody) (v : ℚ) (hstock : b.stock = some v) (hv : 0 ≤ v)
    (hfind : MockProductService.findById s.products id = none) :
    InventoryController.updateStock s now uid id b
      = (UpdateStockResult.notFound, s) := by
  have hval : validateUpdateStock b = .ok v b.reason := by
    rw [validateUpdateStock, hstock]
    exact if_neg (not_lt.mpr hv)
  unfold InventoryController.updateStock
  rw [hval, hfind]

/-- C3: stock update with a negative or non-numeric stock field.  The
controller answers validationError and returns the store untouched: neither
a product nor the log is changed. -/
theorem update_stock_validation_error (s : StoreState) (now : Nat)
    (uid id : String) (b : StockBody)
    (h : b.stock = none ∨ ∃ v : ℚ, b.stock = some v ∧ v < 0) :
    InventoryController.updateStock s now uid id b
      = (UpdateStockResult.validationError, s) := by
  have hval : validateUpdateStock b = .error := by
    rcases h with h | ⟨v, hv, hneg⟩
    · rw [validateUpdateStock, h]
    · rw [validateUpdateStock, hv]
      exact if_pos hneg
  unfold InventoryController.updateStock
  rw [hval]

/-- A small product used to instantiate the stock-update theorems. -/
def sampleProduct : Product :=
  { _id := "p1"
    name := "Widget"
    sku := "W-1"
    price := 10
    category := "Misc"
    stock := 10
    minStock := some 5
    description := none
    warehouseId := some "wh_main"
    createdAt := 0
    updatedAt := 0 }

/-- A one-product store used to instantiate the stock-update theorems. -/
def sampleState : StoreState :=
  { products := [sampleProduct], logs := [] }

theorem update_stock_success_witness :
    ({ stock := some 3, reason := some "sale" } : StockBody).stock = some 3 ∧
    (0 : ℚ) ≤ 3 ∧
    MockProductService.findById sampleState.products "p1" = some sampleProduct ∧
    ((InventoryController.updateStock sampleState 1000 "user_manager_001" "p1"
        { stock := some 3, reason := some "sale" }).1
      = UpdateStockResult.ok "p1" sampleProduct.stock 3 1000 ∧
    (MockProductService.findById
        (InventoryController.updateStock sampleState 1000 "user_manager_001" "p1"
          { stock := some 3, reason := some "sale" }).2.products "p1").map
        Product.stock = some 3 ∧
    ∃ e : InventoryLog,
      (InventoryController.updateStock sampleState 1000 "user_manager_001" "p1"
          { stock := some 3, reason := some "sale" }).2.logs
        = sampleState.logs ++ [e] ∧
      e.previousStock = sampleProduct.stock ∧ e.newStock = 3 ∧
      e.quantity = 3 - sampleProduct.stock) :=
  ⟨rfl, by norm_num, rfl,
    update_stock_success sampleState 1000 "user_manager_001" "p1"
      { stock := some 3, reason := some "sale" } sampleProduct 3 rfl
      (by norm_num) rfl⟩

theorem update_stock_not_found_witness :
    ({ stock := some 3, reason := none } : StockBody).stock = some 3 ∧
    (0 : ℚ) ≤ 3 ∧
    MockProductService.findById sampleState.products "ghost" = none ∧
    InventoryController.updateStock sampleState 1000 "user_manager_001" "ghost"
        { stock := some 3, reason := none }
      = (UpdateStockResult.notFound, sampleState) :=
  ⟨rfl, by norm_num, rfl,
    update_stock_not_found sampleState 1000 "user_manager_001" "ghost"
      { stock := some 3, reason := none } 3 rfl (by norm_num) rfl⟩

theorem update_stock_validation_error_witness :
    (({ stock := some (-1), reason := none } : StockBody).stock = some (-1) ∧
      (-1 : ℚ) < 0) ∧
    InventoryController.updateStock sampleState 1000 "user_manager_001" "p1"
        { stock := some (-1), reason := none }
      = (UpdateStockResult.validationError, sampleState) :=
  ⟨⟨rfl, by norm_num⟩,
    update_stock_validation_error sampleState 1000 "user_manager_001" "p1"
      { stock := some (-1), reason := none }
      (Or.inr ⟨-1, rfl, by norm_num⟩)⟩

end Inventory

namespace Inventory

/-- C7: SKU uniqueness at creation.  With a body that passes the product
schema: when some product already carries the body's SKU (case-sensitive
exact match) the controller answers conflict and leaves the store unchanged;
when no product carries it the controller answers created and findBySku on
the resulting store returns exactly the created product. -/
theorem create_product_sku_unique (s : StoreState) (now : Nat)
    (b : MockProductService.ProductData) (hb : validateProductBody b = true) :
    (∀ q : Product, MockProductService.findBySku s.products b.sku = some q →
      ProductController.createProduct s now b = (.conflict, s)) ∧
    (MockProductService.findBySku s.products b.sku = none →
      ProductController.createProduct s now b
          = (.created (MockProductService.create s.products now b).1,
              { s with products := (MockProductService.create s.products now b).2 }) ∧
      (MockProductService.create s.products now b).1.sku = b.sku ∧
      MockProductService.findBySku
          (ProductController.createProduct s now b).2.products b.sku
        = some (MockProductService.create s.products now b).1) := by
  constructor
  · intro q hq
    unfold ProductController.createProduct
    rw [if_pos hb, hq]
  · intro hn
    have hcreate :
        ProductController.createProduct s now b
          = (.created (MockProductService.create s.products now b).1,
              { s with products := (MockProductService.create s.products now b).2 }) := by
      unfold ProductController.createProduct
      rw [if_pos hb, hn]
    refine ⟨hcreate, rfl, ?_⟩
    rw [hcreate]
    show MockProductService.findBySku
        (s.products ++ [(MockProductService.create s.products now b).1]) b.sku = _
    rw [findBySku_append s.products _ b.sku hn]
    unfold MockProductService.findBySku
    exact if_pos rfl

theorem create_product_sku_unique_witness :
    validateProductBody
        { name := "Widget", sku := "W-1", price := 10, category := "Misc",
          stock := 10, minStock := some 5, description := none,
          warehouseId := some "wh_main" } = true ∧
    MockProductService.findBySku sampleState.products "W-1" = some sampleProduct ∧
    ProductController.createProduct sampleState 2000
        { name := "Widget", sku := "W-1", price := 10, category := "Misc",
          stock := 10, minStock := some 5, description := none,
          warehouseId := some "wh_main" }
      = (CreateProductResult.conflict, sampleState) :=
  ⟨by decide, by decide,
    (create_product_sku_unique sampleState 2000
        { name := "Widget", sku := "W-1", price := 10, category := "Misc",
          stock := 10, minStock := some 5, description := none,
          warehouseId := some "wh_main" } (by decide)).1 sampleProduct (by decide)⟩

end Inventory

namespace Inventory

/-- Creation data used to exercise MockProductService.create twice within
one millisecond. -/
def productDataA : MockProductService.ProductData :=
  { name := "Product A", sku := "SKU-A", price := 1, category := "Misc",
    stock := 1, minStock := none, description := none, warehouseId := none }

/-- Creation data distinct from productDataA. -/
def productDataB : MockProductService.ProductData :=
  { name := "Product B", sku := "SKU-B", price := 2, category := "Misc",
    stock := 2, minStock := none, description := none, warehouseId := none }

/-- C8: two distinct MockProductService.create calls that read the same
Date.now() millisecond (here 100) assign the same identifier prod_100, so
the store then holds two different products sharing one identifier -- the
id-uniqueness invariant the spec states is not enforced by the code. -/
theorem create_duplicate_identifier :
    ((MockProductService.create
        (MockProductService.create [] 100 productDataA).2 100 productDataB).2.map
      Product._id) = ["prod_100", "prod_100"] ∧
    (MockProductService.create [] 100 productDataA).1
      ≠ (MockProductService.create
          (MockProductService.create [] 100 productDataA).2 100 productDataB).1 := by
  constructor
  · decide
  · decide

/-- C9: the updateStock validation schema only requires a number at least 0,
so the fractional request stock 3.5 on the seeded product prod_001 (stock 5)
is accepted: the controller answers ok, the stored stock becomes 3.5 (a
non-integer rational, denominator 2), and a log entry with newStock 3.5 and
quantity -1.5 is appended. -/
theorem fractional_stock_accepted :
    (InventoryController.updateStock initState 1706000000000 "user_manager_001"
        "prod_001" { stock := some 3.5, reason := none }).1
      = UpdateStockResult.ok "prod_001" 5 3.5 1706000000000 ∧
    (MockProductService.findById
        (InventoryController.updateStock initState 1706000000000 "user_manager_001"
          "prod_001" { stock := some 3.5, reason := none }).2.products
        "prod_001").map Product.stock = some 3.5 ∧
    (InventoryController.updateStock initState 1706000000000 "user_manager_001"
        "prod_001" { stock := some 3.5, reason := none }).2.logs
      = initialLogs ++
        [{ _id := "log_1706000000000"
           productId := "prod_001"
           warehouseId := some "wh_main"
           userId := "user_manager_001"
           action := .update
           previousStock := 5
           newStock := 3.5
           quantity := -1.5
           reason := some "Stock update"
           timestamp := 1706000000000 }] ∧
    (3.5 : ℚ).den = 2 := by
  have hval : validateUpdateStock { stock := some 3.5, reason := none }
      = StockValidation.ok 3.5 none := by
    unfold validateUpdateStock
    exact if_neg (by norm_num)
  have hfind : MockProductService.findById initState.products "prod_001"
      = some { _id := "prod_001", name := "Laptop Dell XPS 15",
               sku := "DX15-2025", price := 1200.99, category := "Electronics",
               stock := 5, minStock := some 10,
               description := some "High-performance laptop for professionals",
               warehouseId := some "wh_main", createdAt := 1704067200000,
               updatedAt := 1704067200000 } := rfl
  have hup := updateStock_of_findById initState.products "prod_001" 3.5
    1706000000000 _ hfind
  unfold InventoryController.updateStock
  rw [hval]
  dsimp only
  rw [hfind]
  dsimp only
  rw [hup.1]
  dsimp only
  refine ⟨rfl, ?_, ?_, by norm_num⟩
  · rw [hup.2]
    rfl
  · unfold MockInventoryLogService.createStockUpdate MockInventoryLogService.create
    dsimp only
    rw [if_neg (by norm_num : ¬ (3.5 : ℚ) - 5 > 0),
      if_pos (by norm_num : (3.5 : ℚ) - 5 < 0)]
    norm_num
    rfl

end Inventory
